import Mathlib

/-!
# Shallow embedding of `src/relief_script.js` (class `IndiaDisasterFeed`)

The JavaScript program aggregates disaster alerts from three sources
(ReliefWeb, GDACS, NASA EONET), normalizes each provider's payload into a
common `DisasterEvent` record, caches the aggregated list for five minutes,
and ranks events for display.

Modelling conventions:
* machine time (`Date.now()`) is an `Int` of milliseconds, passed explicitly;
* a JavaScript `Date` object is `Option Int`: `some t` is a valid timestamp,
  `none` is an Invalid Date (`new Date(undefined)`, unparsable input, NaN);
* `Date` parsing of a string is an explicit parameter
  `parse : String → Option Int` threaded through the adapters;
* absent (`undefined`/`null`) fields are `Option`; JavaScript `x || y`
  falsiness of `undefined`, `null`, `""` and `0` is modelled explicitly;
* an adapter attempt is an `Except Unit _`: `.error ()` is a rejected fetch,
  a non-ok HTTP status, or a payload whose traversal throws;
* the network outcome of each of the three endpoints is an explicit
  `SourceOutcomes` argument to the orchestrator functions.
-/

/-- JS `a || b` where both operands are optional strings: `undefined`, `null`
and `""` are falsy. -/
def jsOr (a b : Option String) : Option String :=
  match a with
  | some s => if s = "" then b else some s
  | none => b

/-- JS `a || d` where the fallback `d` is a string literal. -/
def jsOrStr (a : Option String) (d : String) : String :=
  match a with
  | some s => if s = "" then d else s
  | none => d

/-- JS string interpolation of a possibly-undefined value
(`` `${x}` `` prints `"undefined"` when `x` is `undefined`). -/
def jsTemplateStr (o : Option String) : String := o.getD "undefined"

/-- JS `new Date(x)` for an optional string argument: `new Date(undefined)`
is an Invalid Date; otherwise the string is parsed by `parse`. -/
def jsDate (parse : String → Option Int) (s : Option String) : Option Int :=
  match s with
  | none => none
  | some str => parse str

/-- The common normalized record produced by every adapter
(`DisasterEvent` in the spec; the object literals built in
`parseReliefWebData`, `fetchFromGDACS`, `fetchFromEONET`, `getSampleData`). -/
structure DisasterEvent where
  id : String
  title : String
  description : String
  date : Option Int
  location : String
  disasterType : String
  severity : String
  source : String
  url : String
  country : String
deriving DecidableEq

/-- The in-memory cache (`this.cache`): `data` is `null` or a list,
`timestamp` is `null` or the stamped `Date.now()` value.  The constant
`duration` field (5 minutes) is `cacheDuration` below. -/
structure JSCache where
  data : Option (List DisasterEvent)
  timestamp : Option Int
deriving DecidableEq

/-- `this.cache.duration = 5 * 60 * 1000`. -/
def cacheDuration : Int := 5 * 60 * 1000

/-- The cache as constructed: `{ data: null, timestamp: null }`. -/
def initCache : JSCache := ⟨none, none⟩

/-- `isCacheValid()`: `if (!this.cache.data || !this.cache.timestamp) return
false; return (Date.now() - this.cache.timestamp) < this.cache.duration;`.
A `null` `data` is falsy; a `null` **or zero** `timestamp` is falsy. -/
def isCacheValid (c : JSCache) (now : Int) : Bool :=
  match c.data, c.timestamp with
  | some _, some t => if t = 0 then false else decide (now - t < cacheDuration)
  | _, _ => false

/-- The cache write in `fetchDisasterData`:
`this.cache.data = data; this.cache.timestamp = Date.now();`. -/
def cachePut (c : JSCache) (l : List DisasterEvent) (now : Int) : JSCache :=
  { c with data := some l, timestamp := some now }

/-- The cache read at the top of `fetchDisasterData`: on a hit the stored
list is returned, otherwise the caller falls through to a fresh fetch. -/
def cacheGet (c : JSCache) (now : Int) : Option (List DisasterEvent) :=
  if isCacheValid c now then c.data else none

/-- `clearCache()`: both fields reset to `null`. -/
def clearCache (_ : JSCache) : JSCache := ⟨none, none⟩

/-- The body of `fetchDisasterData` below the cache check, generic in the
outcome of the awaited `fetchFromReliefWeb()` call: on success the result is
cached and returned; the `catch` branch returns `[]` and does not touch the
cache. -/
def fetchDisasterDataStep (primary : Except Unit (List DisasterEvent))
    (c : JSCache) (now : Int) : List DisasterEvent × JSCache :=
  if isCacheValid c now then (c.data.getD [], c)
  else
    match primary with
    | .ok data => (data, cachePut c data now)
    | .error _ => ([], c)

/-! ## ReliefWeb adapter (primary source) -/

/-- An element of the `country`/`location`/`disaster_type`/`theme`/`source`
arrays of a ReliefWeb report: only its `name` field is read. -/
structure RWName where
  name : Option String
deriving DecidableEq

/-- `fields.headline`: only `summary` is read. -/
structure RWHeadline where
  summary : Option String
deriving DecidableEq

/-- `fields.date`: only `created` and `original` are read. -/
structure RWDateField where
  created : Option String
  original : Option String
deriving DecidableEq

/-- The `fields` object of one ReliefWeb report, restricted to the
properties the program reads. -/
structure RWFields where
  title : Option String
  body : Option String
  headline : Option RWHeadline
  date : Option RWDateField
  primary_country : Option RWName
  country : Option (List RWName)
  location : Option (List RWName)
  disaster_type : Option (List RWName)
  theme : Option (List RWName)
  source : Option (List RWName)
  url : Option String
  url_alias : Option String
deriving DecidableEq

/-- One element of `json.data` in a ReliefWeb response. -/
structure RWItem where
  id : String
  fields : RWFields
deriving DecidableEq

/-- A parsed ReliefWeb response body: `json.data` may be absent. -/
structure RWPayload where
  data : Option (List RWItem)
deriving DecidableEq

/-- The optional chain `xs?.[0]?.name`. -/
def optHeadName (l : Option (List RWName)) : Option String :=
  (l.bind (·.get? 0)).bind (·.name)

/-- `extractLocation(fields)`: primary country name, else first country
name, else first location name, else `'India'`; each guard is a JS
truthiness test, so an empty-string name falls through. -/
def extractLocation (f : RWFields) : String :=
  jsOrStr (jsOr (f.primary_country.bind (·.name))
    (jsOr (optHeadName f.country) (optHeadName f.location))) "India"

/-- `extractDisasterType(fields)`: first disaster-type name, else first
theme name, else `'General Alert'`. -/
def extractDisasterType (f : RWFields) : String :=
  jsOrStr (jsOr (optHeadName f.disaster_type) (optHeadName f.theme)) "General Alert"

/-! ### Substring matching

`String.prototype.match` with an alternation regex of plain words is an
"any of these words occurs as a substring" test. -/

/-- `pat` occurs as a contiguous sublist of the second argument. -/
def containsSub (pat : List Char) : List Char → Bool
  | [] => pat.isEmpty
  | c :: cs => pat.isPrefixOf (c :: cs) || containsSub pat cs

/-- `pat` occurs as a substring of `s` (JS `s.match(/pat/) !== null` for a
literal word `pat`). -/
def strIncludes (s pat : String) : Bool := containsSub pat.data s.data

/-- `s.match(/p1|p2|…/)` is truthy: some alternative occurs in `s`. -/
def containsAny (s : String) (pats : List String) : Bool :=
  pats.any (fun p => strIncludes s p)

/-- JS `toLowerCase()` (character-wise lowering, as in `Char.toLower`). -/
def jsToLower (s : String) : String := ⟨s.data.map Char.toLower⟩

/-- The high-severity keyword alternation
`/urgent|emergency|critical|severe|major|catastrophic|deadly/i`. -/
def highKeywords : List String :=
  ["urgent", "emergency", "critical", "severe", "major", "catastrophic", "deadly"]

/-- `calculateSeverity(fields)`: keyword scan of the lower-cased
`title + ' ' + body`, then disaster-type classes, else `'low'`. -/
def calculateSeverity (f : RWFields) : String :=
  let title := jsToLower (jsOrStr f.title "")
  let body := jsToLower (jsOrStr f.body "")
  let content := title ++ " " ++ body
  if containsAny content highKeywords then "high"
  else
    let disasterType := jsToLower (extractDisasterType f)
    if containsAny disasterType ["earthquake", "cyclone", "flood", "tsunami"] then "high"
    else if containsAny disasterType ["storm", "landslide", "wildfire"] then "medium"
    else "low"

/-- `parseReliefWebData(data)`: normalize each report. -/
def parseReliefWebData (parse : String → Option Int) (data : List RWItem) :
    List DisasterEvent :=
  data.map fun item =>
    { id := item.id
      title := jsOrStr item.fields.title "Disaster Report"
      description := jsOrStr (jsOr (item.fields.body.map String.trim)
        (item.fields.headline.bind (·.summary))) "View full report for details"
      date := jsDate parse (jsOr (item.fields.date.bind (·.created))
        (item.fields.date.bind (·.original)))
      location := extractLocation item.fields
      disasterType := extractDisasterType item.fields
      severity := calculateSeverity item.fields
      source := jsOrStr (optHeadName item.fields.source) "ReliefWeb"
      url := jsOrStr (jsOr item.fields.url item.fields.url_alias) "#"
      country := "India" }

/-! ## GDACS adapter -/

/-- `feature.properties` of a GDACS feature, restricted to what is read. -/
structure GProps where
  eventid : String
  name : Option String
  description : Option String
  fromdate : Option String
  country : Option String
  eventtype : String
  alertlevel : String
  url : Option String
deriving DecidableEq

/-- One element of `data.features`. -/
structure GFeature where
  properties : GProps
deriving DecidableEq

/-- A parsed GDACS response body: `data.features` may be absent. -/
structure GPayload where
  features : Option (List GFeature)
deriving DecidableEq

/-- `mapGDACSEventType(type)`: fixed lookup table, unknown codes pass
through (`mapping[type] || type`). -/
def mapGDACSEventType (t : String) : String :=
  if t = "EQ" then "Earthquake"
  else if t = "TC" then "Tropical Cyclone"
  else if t = "FL" then "Flood"
  else if t = "DR" then "Drought"
  else if t = "VO" then "Volcano"
  else if t = "WF" then "Wildfire"
  else t

/-- `mapGDACSAlertLevel(level)`: fixed lookup, unknown levels default to
`'low'` (`mapping[level] || 'low'`). -/
def mapGDACSAlertLevel (l : String) : String :=
  if l = "Red" then "high"
  else if l = "Orange" then "medium"
  else if l = "Green" then "low"
  else "low"

/-- The object literal built for one GDACS feature in `fetchFromGDACS`. -/
def gdacsEvent (parse : String → Option Int) (feat : GFeature) : DisasterEvent :=
  let p := feat.properties
  { id := p.eventid
    title := jsOrStr p.name "Disaster Alert"
    description := jsOrStr p.description
      (p.eventtype ++ " event in " ++ jsTemplateStr p.country)
    date := jsDate parse p.fromdate
    location := jsOrStr p.country "India"
    disasterType := mapGDACSEventType p.eventtype
    severity := mapGDACSAlertLevel p.alertlevel
    source := "GDACS"
    url := jsOrStr p.url "#"
    country := "India" }

/-- `fetchFromGDACS()`: a failed or non-ok fetch throws; a payload without
features yields `[]`; otherwise every feature is normalized. -/
def fetchFromGDACS (o : Except Unit GPayload) (parse : String → Option Int) :
    Except Unit (List DisasterEvent) :=
  match o with
  | .error e => .error e
  | .ok d =>
    match d.features with
    | none => .ok []
    | some [] => .ok []
    | some fs => .ok (fs.map (gdacsEvent parse))

/-! ## EONET adapter -/

/-- One element of `event.geometry`. -/
structure EGeometry where
  coordinates : List ℚ
  date : Option String
deriving DecidableEq

/-- One element of `event.categories`: only `title` is read. -/
structure ECategory where
  title : String
deriving DecidableEq

/-- One element of `event.sources`: only `url` is read. -/
structure ESource where
  url : Option String
deriving DecidableEq

/-- One element of `data.events` in an EONET response.  An absent
`geometry` array and an empty one are both rejected by the filter, so the
field is a plain list. -/
structure EEvent where
  id : String
  title : String
  description : Option String
  geometry : List EGeometry
  categories : List ECategory
  link : Option String
  sources : List ESource
deriving DecidableEq

/-- A parsed EONET response body: `data.events` may be absent. -/
structure EPayload where
  events : Option (List EEvent)
deriving DecidableEq

/-- JS `x >= c` where `x` may be `undefined` (an out-of-range index):
comparison with `undefined` is `NaN`-ish and yields `false`. -/
def jsGE (o : Option ℚ) (c : ℚ) : Bool :=
  match o with
  | some x => decide (c ≤ x)
  | none => false

/-- JS `x <= c` where `x` may be `undefined`. -/
def jsLE (o : Option ℚ) (c : ℚ) : Bool :=
  match o with
  | some x => decide (x ≤ c)
  | none => false

/-- The filter predicate in `fetchFromEONET`: first geometry's coordinates,
`coords[1]` (latitude) in `[8, 35]` and `coords[0]` (longitude) in
`[68, 97]`. -/
def eonetKeep (e : EEvent) : Bool :=
  match e.geometry with
  | [] => false
  | g :: _ =>
    jsGE g.coordinates[1]? 8 && jsLE g.coordinates[1]? 35 &&
      jsGE g.coordinates[0]? 68 && jsLE g.coordinates[0]? 97

/-- The object literal built for one kept EONET event.  Accessing
`event.categories[0].title` (and `event.geometry[0].date`) throws a
`TypeError` when the array is empty, so the per-event normalization is
fallible. -/
def eonetEvent (parse : String → Option Int) (e : EEvent) :
    Except Unit DisasterEvent :=
  match e.geometry, e.categories with
  | g :: _, c :: _ =>
    .ok { id := e.id
          title := e.title
          description := jsOrStr e.description (c.title ++ " event detected")
          date := jsDate parse g.date
          location := "India Region"
          disasterType := c.title
          severity := "medium"
          source := "NASA EONET"
          url := jsOrStr (jsOr e.link (e.sources[0]?.bind (·.url))) "#"
          country := "India" }
  | _, _ => .error ()

/-- `indiaEvents.map(...)` with JS exception propagation: the traversal
stops at the first event whose normalization throws. -/
def eonetMapAll (parse : String → Option Int) :
    List EEvent → Except Unit (List DisasterEvent)
  | [] => .ok []
  | e :: es =>
    match eonetEvent parse e with
    | .error u => .error u
    | .ok d =>
      match eonetMapAll parse es with
      | .error u => .error u
      | .ok ds => .ok (d :: ds)

/-- `fetchFromEONET()`: a failed or non-ok fetch throws; a payload without
events yields `[]`; otherwise the events are geo-filtered and normalized. -/
def fetchFromEONET (o : Except Unit EPayload) (parse : String → Option Int) :
    Except Unit (List DisasterEvent) :=
  match o with
  | .error e => .error e
  | .ok d =>
    match d.events with
    | none => .ok []
    | some [] => .ok []
    | some evs => eonetMapAll parse (evs.filter eonetKeep)

/-! ## Sample data and orchestrator -/

/-- `getSampleData()`: the fixed four-event fallback dataset, with dates
relative to `Date.now()`. -/
def getSampleData (now : Int) : List DisasterEvent :=
  [ { id := "sample-1"
      title := "Flood Alert in Kerala - Monsoon Impact"
      description := "Heavy rainfall has caused flooding in several districts of Kerala. Emergency services are responding to rescue operations. Volunteers needed for relief distribution."
      date := some (now - 2 * 24 * 60 * 60 * 1000)
      location := "Kerala, India"
      disasterType := "Flood"
      severity := "high"
      source := "Sample Data"
      url := "#"
      country := "India" },
    { id := "sample-2"
      title := "Earthquake Monitoring - Himalayan Region"
      description := "Seismic activity detected in the Himalayan region. No major damage reported. Authorities monitoring the situation."
      date := some (now - 5 * 24 * 60 * 60 * 1000)
      location := "Uttarakhand, India"
      disasterType := "Earthquake"
      severity := "medium"
      source := "Sample Data"
      url := "#"
      country := "India" },
    { id := "sample-3"
      title := "Heatwave Advisory - North India"
      description := "Extreme temperatures expected across North Indian states. Health advisory issued for vulnerable populations. Stay hydrated and avoid outdoor activities during peak hours."
      date := some (now - 1 * 24 * 60 * 60 * 1000)
      location := "Delhi, Rajasthan, UP"
      disasterType := "Extreme Temperature"
      severity := "medium"
      source := "Sample Data"
      url := "#"
      country := "India" },
    { id := "sample-4"
      title := "Cyclone Watch - Bay of Bengal"
      description := "Low pressure system developing over Bay of Bengal. Coastal areas advised to stay alert. Fishermen warned not to venture into sea."
      date := some (now - 3 * 24 * 60 * 60 * 1000)
      location := "Odisha, West Bengal"
      disasterType := "Cyclone"
      severity := "high"
      source := "Sample Data"
      url := "#"
      country := "India" } ]

/-- The resolved network outcome of each endpoint for one pipeline run. -/
structure SourceOutcomes where
  relief : Except Unit RWPayload
  gdacs : Except Unit GPayload
  eonet : Except Unit EPayload

/-- The tail of `fetchFromAlternativeSources` after the GDACS attempt: try
EONET inside its own `try`, keep a non-empty result, otherwise fall back to
the sample dataset. -/
def eonetThenSample (o : SourceOutcomes) (parse : String → Option Int)
    (now : Int) : List DisasterEvent :=
  match fetchFromEONET o.eonet parse with
  | .ok eonetData => if eonetData.length > 0 then eonetData else getSampleData now
  | .error _ => getSampleData now

/-- `fetchFromAlternativeSources()`: GDACS inside a `try` (a caught error
falls through, like an empty result), then EONET likewise, then the sample
dataset. -/
def fetchFromAlternativeSources (o : SourceOutcomes)
    (parse : String → Option Int) (now : Int) : List DisasterEvent :=
  match fetchFromGDACS o.gdacs parse with
  | .ok gdacsData =>
    if gdacsData.length > 0 then gdacsData else eonetThenSample o parse now
  | .error _ => eonetThenSample o parse now

/-- The success path of `fetchFromReliefWeb`: `if (json.data &&
json.data.length > 0) return parseReliefWebData(json.data); return [];`. -/
def parseRWPayload (parse : String → Option Int) (p : RWPayload) :
    List DisasterEvent :=
  match p.data with
  | some items => if items.length > 0 then parseReliefWebData parse items else []
  | none => []

/-- `fetchFromReliefWeb()`: on a successful response its (possibly empty)
normalized list is returned; only the `catch` branch — a rejected fetch, a
non-ok status, or a body that fails to parse — falls back to
`fetchFromAlternativeSources`. -/
def fetchFromReliefWeb (o : SourceOutcomes) (parse : String → Option Int)
    (now : Int) : List DisasterEvent :=
  match o.relief with
  | .ok json => parseRWPayload parse json
  | .error _ => fetchFromAlternativeSources o parse now

/-- `fetchDisasterData()`: cache check, then the awaited primary fetch
(which, by construction, resolves for every outcome combination), then the
cache write.  Returns the produced list and the updated cache. -/
def fetchDisasterData (o : SourceOutcomes) (parse : String → Option Int)
    (c : JSCache) (now : Int) : List DisasterEvent × JSCache :=
  fetchDisasterDataStep (.ok (fetchFromReliefWeb o parse now)) c now

/-! ## Ranking (render path) -/

/-- The `severityOrder` object lookup in `render()`: unknown severities
read as `undefined`. -/
def severityOrderJS (s : String) : Option Int :=
  if s = "high" then some 0
  else if s = "medium" then some 1
  else if s = "low" then some 2
  else none

/-- JS `b.date - a.date` on `Date` objects: any Invalid Date makes the
difference `NaN`, which `Array.prototype.sort` treats as `0`. -/
def jsDateSub (b a : Option Int) : Int :=
  match b, a with
  | some x, some y => x - y
  | _, _ => 0

/-- The comparator passed to `disasters.sort` in `render()`.  A comparison
involving exactly one unknown severity returns `NaN` (`undefined - n`),
which the sort treats as `0`. -/
def renderCompare (a b : DisasterEvent) : Int :=
  match severityOrderJS a.severity, severityOrderJS b.severity with
  | some x, some y => if x ≠ y then x - y else jsDateSub b.date a.date
  | none, none => jsDateSub b.date a.date
  | _, _ => 0

/-- `disasters.sort(comparator)`: `Array.prototype.sort` is a stable sort,
modelled by a stable merge sort keeping `a` before `b` when
`comparator(a, b) <= 0`. -/
def renderSort (l : List DisasterEvent) : List DisasterEvent :=
  l.mergeSort (fun a b => decide (renderCompare a b ≤ 0))

/-- Total severity rank used to state the intended ordering (unknown
severities ranked last; on pipeline output only the first three occur). -/
def rankD (s : String) : Int :=
  if s = "high" then 0
  else if s = "medium" then 1
  else if s = "low" then 2
  else 3

/-- Date key with invalid dates collapsed to `0`. -/
def dateD (d : Option Int) : Int := d.getD 0

/-- Totalized key comparison: severity rank ascending, date descending as
tie-break.  On events with known severities and valid dates it agrees with
the JS comparator. -/
def leKey (a b : DisasterEvent) : Bool :=
  if rankD a.severity = rankD b.severity then decide (dateD b.date ≤ dateD a.date)
  else decide (rankD a.severity < rankD b.severity)

/-- An event whose severity is one of the three enum values and whose date
is a valid timestamp. -/
def goodEvent (e : DisasterEvent) : Prop :=
  (e.severity = "high" ∨ e.severity = "medium" ∨ e.severity = "low") ∧
    e.date.isSome = true

instance (e : DisasterEvent) : Decidable (goodEvent e) := by
  unfold goodEvent; infer_instance

/-! ## Spec-side definitions (for refinement comparisons)

These two definitions transcribe the specification's words, to be compared
with the definitions transcribed from the code. -/

/-- The severity algorithm as the specification words it: a
case-insensitive match of the seven high-severity keywords against the
report's title and body text (joined for matching), else the
disaster-type classes, else `low`. -/
def severitySpec (f : RWFields) : String :=
  let text := f.title.getD "" ++ " " ++ f.body.getD ""
  if containsAny (jsToLower text) highKeywords then "high"
  else
    let dt := jsToLower (extractDisasterType f)
    if containsAny dt ["earthquake", "cyclone", "flood", "tsunami"] then "high"
    else if containsAny dt ["storm", "landslide", "wildfire"] then "medium"
    else "low"

/-- The geofilter as the specification words it: the first geometry
coordinate exists and falls inside latitude 8–35, longitude 68–97. -/
def inBBoxSpec (e : EEvent) : Prop :=
  ∃ g gs lon lat, e.geometry = g :: gs ∧
    g.coordinates[0]? = some lon ∧ g.coordinates[1]? = some lat ∧
    8 ≤ lat ∧ lat ≤ 35 ∧ 68 ≤ lon ∧ lon ≤ 97

/-! ## Concrete fixtures -/

/-- A date parser that parses nothing (every string is an Invalid Date). -/
def parseNone : String → Option Int := fun _ => none

/-- A date parser that parses every string (to the epoch). -/
def parseAll : String → Option Int := fun _ => some 0

/-- All three endpoints fail. -/
def allErrorOutcomes : SourceOutcomes := ⟨.error (), .error (), .error ()⟩

/-- Every endpoint responds successfully with zero records. -/
def allEmptyOutcomes : SourceOutcomes :=
  ⟨.ok ⟨some []⟩, .ok ⟨some []⟩, .ok ⟨some []⟩⟩

/-- A ReliefWeb `fields` object with every property absent. -/
def emptyRWFields : RWFields :=
  ⟨none, none, none, none, none, none, none, none, none, none, none, none⟩

/-- A ReliefWeb report with no date fields at all. -/
def noDateItem : RWItem := ⟨"rw-1", emptyRWFields⟩

/-- A GDACS feature: a Red-alert earthquake. -/
def gFeatureEQ : GFeature := ⟨⟨"g-1", none, none, none, none, "EQ", "Red", none⟩⟩

/-- A GDACS payload holding exactly `gFeatureEQ`. -/
def gPayloadEQ : GPayload := ⟨some [gFeatureEQ]⟩

/-- An EONET event at longitude 80, latitude 20 (inside the box). -/
def eEvent80 : EEvent :=
  ⟨"e-80", "Event 80", none, [⟨[80, 20], none⟩], [⟨"Severe Storms"⟩], none, []⟩

/-- An EONET event at longitude 100, latitude 20 (outside the box). -/
def eEvent100 : EEvent :=
  ⟨"e-100", "Event 100", none, [⟨[100, 20], none⟩], [⟨"Severe Storms"⟩], none, []⟩

/-- An EONET payload holding both events above. -/
def ePayload80 : EPayload := ⟨some [eEvent100, eEvent80]⟩

/-- `fields` whose title contains `URGENT` but whose disaster type resolves
to the default `General Alert` (which alone would classify as `low`). -/
def urgentFields : RWFields :=
  { emptyRWFields with title := some "URGENT assistance needed" }

/-- A cache entry stamped at time `0` (both fields are set). -/
def staleZeroCache : JSCache := ⟨some [], some 0⟩

/-! ## Helper lemmas -/

theorem jsOrStr_empty (x : Option String) : jsOrStr x "" = x.getD "" := by
  cases x with
  | none => rfl
  | some s =>
    by_cases h : s = "" <;> simp [jsOrStr, h]

theorem jsToLower_append (a b : String) :
    jsToLower (a ++ b) = jsToLower a ++ jsToLower b := by
  apply String.ext
  simp [jsToLower]

theorem jsToLower_space : jsToLower " " = " " := by decide

theorem containsSub_nil_pat (l : List Char) : containsSub [] l = true := by
  induction l with
  | nil => rfl
  | cons c cs ih => simp [containsSub, ih]

theorem containsSub_append_right (pat l r : List Char)
    (h : containsSub pat l = true) : containsSub pat (l ++ r) = true := by
  induction l with
  | nil =>
    simp only [containsSub, List.isEmpty_iff] at h
    subst h
    simpa using containsSub_nil_pat r
  | cons c cs ih =>
    simp only [containsSub, Bool.or_eq_true] at h ⊢
    rcases h with h | h
    · left
      rw [List.isPrefixOf_iff_prefix] at h ⊢
      exact h.trans (List.prefix_append _ _)
    · right
      exact ih h

theorem containsSub_append_left (pat l r : List Char)
    (h : containsSub pat r = true) : containsSub pat (l ++ r) = true := by
  induction l with
  | nil => simpa using h
  | cons c cs ih =>
    simp only [containsSub, Bool.or_eq_true]
    right
    exact ih

theorem strIncludes_append_left (a b p : String)
    (h : strIncludes a p = true) : strIncludes (a ++ b) p = true := by
  unfold strIncludes at h ⊢
  rw [String.data_append]
  exact containsSub_append_right _ _ _ h

theorem calculateSeverity_mem (f : RWFields) :
    calculateSeverity f = "high" ∨ calculateSeverity f = "medium" ∨
      calculateSeverity f = "low" := by
  simp only [calculateSeverity]
  split_ifs <;> simp

theorem mapGDACSAlertLevel_mem (l : String) :
    mapGDACSAlertLevel l = "high" ∨ mapGDACSAlertLevel l = "medium" ∨
      mapGDACSAlertLevel l = "low" := by
  simp only [mapGDACSAlertLevel]
  split_ifs <;> simp

/-! ## C8: cache hit/miss contract -/

/-- C8 (counterexample): the claimed "hit iff an entry exists and the
elapsed time is below the TTL" fails on a cache stamped at time `0`: both
fields are set and `1 - 0 < ttl`, yet `isCacheValid` reports a miss,
because JS `!timestamp` also rejects the falsy timestamp `0`. -/
theorem cache_hit_iff_fails_at_zero_timestamp :
    (∃ d t, staleZeroCache.data = some d ∧ staleZeroCache.timestamp = some t ∧
      (1 : Int) - t < cacheDuration) ∧
    isCacheValid staleZeroCache 1 = false := by
  refine ⟨⟨[], 0, rfl, rfl, by decide⟩, rfl⟩

/-- C8 (amended): a `get` hits iff both cache fields are set, the stamped
timestamp is nonzero (JS falsiness), and the elapsed time is strictly below
the 5-minute TTL; a `put` stores the list and stamps the given time, so a
`get` at the same (nonzero) instant returns exactly the stored list, and a
`get` once the TTL has elapsed misses. -/
theorem cache_contract :
    (∀ (c : JSCache) (now : Int),
      isCacheValid c now = true ↔
        ∃ d t, c.data = some d ∧ c.timestamp = some t ∧ t ≠ 0 ∧
          now - t < cacheDuration) ∧
    (∀ (c : JSCache) (l : List DisasterEvent) (now : Int), now ≠ 0 →
      cacheGet (cachePut c l now) now = some l) ∧
    (∀ (c : JSCache) (l : List DisasterEvent) (now fut : Int),
      cacheDuration ≤ fut - now → cacheGet (cachePut c l now) fut = none) := by
  refine ⟨?_, ?_, ?_⟩
  · intro c now
    rcases hd : c.data with _ | d <;> rcases ht : c.timestamp with _ | t <;>
      simp only [isCacheValid, hd, ht]
    · simp
    · simp
    · simp
    · by_cases h0 : t = 0
      · subst h0
        simp
      · simp [h0]
  · intro c l now h0
    have hval : isCacheValid (cachePut c l now) now = true := by
      simp only [isCacheValid, cachePut, if_neg h0, decide_eq_true_eq,
        cacheDuration]
      omega
    rw [cacheGet, if_pos hval]
    rfl
  · intro c l now fut h
    have hval : isCacheValid (cachePut c l now) fut = false := by
      simp only [isCacheValid, cachePut]
      by_cases h0 : now = 0
      · simp [h0]
      · simp only [if_neg h0, decide_eq_false_iff_not, not_lt,
          cacheDuration] at h ⊢
        omega
    simp [cacheGet, hval]

/-- C8 (witness): the amended contract evaluated on a concrete cache:
a put at time 5, read back at 5, hits with the stored list; read at
`5 + ttl`, it misses. -/
theorem cache_contract_witness :
    cacheGet (cachePut initCache [] 5) 5 = some [] ∧
    cacheGet (cachePut initCache [] 5) (5 + cacheDuration) = none :=
  ⟨cache_contract.2.1 initCache [] 5 (by decide),
   cache_contract.2.2 initCache [] 5 (5 + cacheDuration) (by decide)⟩

/-! ## C3: ReliefWeb severity classification -/

/-- C3: `calculateSeverity` implements exactly the specified cascade —
high-severity keywords (case-insensitive) against the title and body text,
else disaster-type ∈ {earthquake, cyclone, flood, tsunami} → high, else
∈ {storm, landslide, wildfire} → medium, else low (`severitySpec`
transcribes the spec's wording); and in particular any title containing
"urgent" after case-lowering — i.e. "URGENT" in any case — always yields
`high`, whatever the disaster type. -/
theorem severity_follows_spec :
    (∀ f : RWFields, calculateSeverity f = severitySpec f) ∧
    (∀ (f : RWFields) (t : String), f.title = some t →
      strIncludes (jsToLower t) "urgent" = true →
      calculateSeverity f = "high") := by
  constructor
  · intro f
    simp only [calculateSeverity, severitySpec, jsOrStr_empty,
      jsToLower_append, jsToLower_space]
  · intro f t ht hu
    have htitle : jsOrStr f.title "" = t := by
      rw [ht, jsOrStr_empty]
      rfl
    have h2 : strIncludes
        (jsToLower (jsOrStr f.title "") ++ " " ++ jsToLower (jsOrStr f.body ""))
        "urgent" = true := by
      apply strIncludes_append_left
      rw [htitle]
      exact strIncludes_append_left _ _ _ hu
    have hc : containsAny
        (jsToLower (jsOrStr f.title "") ++ " " ++ jsToLower (jsOrStr f.body ""))
        highKeywords = true := by
      simp only [containsAny, highKeywords, List.any_cons, Bool.or_eq_true]
      exact Or.inl h2
    simp only [calculateSeverity, hc, if_true]

/-- C3 (witness): a concrete report whose title contains "URGENT" while its
disaster type resolves to the default "General Alert" (alone classifying as
low) is classified `high`. -/
theorem severity_follows_spec_witness :
    calculateSeverity urgentFields = "high" ∧
    extractDisasterType urgentFields = "General Alert" :=
  ⟨severity_follows_spec.2 urgentFields "URGENT assistance needed" rfl
    (by decide), rfl⟩

/-! ## C6: GDACS code mappings -/

/-- C6: the event-type table maps EQ/TC/FL/DR/VO/WF to their labels and
passes any other code through unchanged; the alert-level table maps
Red/Orange/Green to high/medium/low and any other level to low. -/
theorem gdacs_code_mapping :
    (mapGDACSEventType "EQ" = "Earthquake" ∧
     mapGDACSEventType "TC" = "Tropical Cyclone" ∧
     mapGDACSEventType "FL" = "Flood" ∧
     mapGDACSEventType "DR" = "Drought" ∧
     mapGDACSEventType "VO" = "Volcano" ∧
     mapGDACSEventType "WF" = "Wildfire") ∧
    (∀ t : String, t ∉ (["EQ", "TC", "FL", "DR", "VO", "WF"] : List String) →
      mapGDACSEventType t = t) ∧
    (mapGDACSAlertLevel "Red" = "high" ∧
     mapGDACSAlertLevel "Orange" = "medium" ∧
     mapGDACSAlertLevel "Green" = "low") ∧
    (∀ l : String, l ∉ (["Red", "Orange", "Green"] : List String) →
      mapGDACSAlertLevel l = "low") := by
  refine ⟨by decide, ?_, by decide, ?_⟩
  · intro t ht
    simp only [List.mem_cons, List.not_mem_nil, or_false, not_or] at ht
    obtain ⟨h1, h2, h3, h4, h5, h6⟩ := ht
    simp [mapGDACSEventType, h1, h2, h3, h4, h5, h6]
  · intro l hl
    simp only [List.mem_cons, List.not_mem_nil, or_false, not_or] at hl
    obtain ⟨h1, h2, h3⟩ := hl
    simp [mapGDACSAlertLevel, h1, h2, h3]

/-- C6 (witness): the unknown event-type code "XX" passes through
unchanged, and the unknown alert level "Purple" maps to low. -/
theorem gdacs_code_mapping_witness :
    mapGDACSEventType "XX" = "XX" ∧ mapGDACSAlertLevel "Purple" = "low" :=
  ⟨gdacs_code_mapping.2.1 "XX" (by decide),
   gdacs_code_mapping.2.2.2 "Purple" (by decide)⟩

/-! ## C5: EONET geofilter and fixed fields -/

theorem eonetMapAll_fixed_fields (parse : String → Option Int) :
    ∀ (es : List EEvent) (l : List DisasterEvent),
      eonetMapAll parse es = .ok l →
      ∀ e ∈ l, e.severity = "medium" ∧ e.location = "India Region" := by
  intro es
  induction es with
  | nil =>
    intro l h e he
    simp only [eonetMapAll] at h
    cases h
    simp at he
  | cons ev evs ih =>
    intro l h e he
    simp only [eonetMapAll] at h
    cases h1 : eonetEvent parse ev with
    | error u => rw [h1] at h; cases h
    | ok d =>
      rw [h1] at h
      cases h2 : eonetMapAll parse evs with
      | error u => rw [h2] at h; cases h
      | ok ds =>
        rw [h2] at h
        injection h with hl
        subst hl
        rcases List.mem_cons.mp he with he' | he'
        · subst he'
          unfold eonetEvent at h1
          rcases hg : ev.geometry with _ | ⟨g, gs⟩ <;>
            rcases hc : ev.categories with _ | ⟨c, cs⟩ <;>
            rw [hg, hc] at h1
          · cases h1
          · cases h1
          · cases h1
          · cases h1
            exact ⟨rfl, rfl⟩
        · exact ih ds h2 e he'

/-- C5: the EONET filter keeps an event iff its first geometry coordinate
pair lies inside latitude 8–35 and longitude 68–97 (`inBBoxSpec`
transcribes the spec's wording); concretely, an event at (lon 100, lat 20)
is dropped and one at (lon 80, lat 20) is kept; and every event the adapter
returns has severity exactly `medium` and location exactly the fixed label
`India Region`. -/
theorem eonet_filter_and_fixed_fields :
    (∀ e : EEvent, eonetKeep e = true ↔ inBBoxSpec e) ∧
    (eonetKeep eEvent100 = false ∧ eonetKeep eEvent80 = true) ∧
    (∀ (p : EPayload) (parse : String → Option Int) (l : List DisasterEvent),
      fetchFromEONET (.ok p) parse = .ok l →
      ∀ e ∈ l, e.severity = "medium" ∧ e.location = "India Region") := by
  refine ⟨?_, by constructor <;> decide, ?_⟩
  · intro e
    constructor
    · intro h
      unfold eonetKeep at h
      cases hg : e.geometry with
      | nil => rw [hg] at h; cases h
      | cons g gs =>
        rw [hg] at h
        simp only [Bool.and_eq_true] at h
        obtain ⟨⟨⟨h1, h2⟩, h3⟩, h4⟩ := h
        cases hlat : g.coordinates[1]? with
        | none => rw [hlat] at h1; cases h1
        | some lat =>
          cases hlon : g.coordinates[0]? with
          | none => rw [hlon] at h3; cases h3
          | some lon =>
            rw [hlat] at h1 h2
            rw [hlon] at h3 h4
            simp only [jsGE, jsLE, decide_eq_true_eq] at h1 h2 h3 h4
            exact ⟨g, gs, lon, lat, hg, hlon, hlat, h1, h2, h3, h4⟩
    · rintro ⟨g, gs, lon, lat, hg, hlon, hlat, hb1, hb2, hb3, hb4⟩
      simp only [eonetKeep, hg]
      simp [jsGE, jsLE, hlon, hlat, hb1, hb2, hb3, hb4]
  · intro p parse l h
    simp only [fetchFromEONET] at h
    cases hp : p.events with
    | none =>
      rw [hp] at h
      cases h
      simp
    | some evs =>
      rw [hp] at h
      cases evs with
      | nil =>
        cases h
        simp
      | cons v vs => exact eonetMapAll_fixed_fields parse _ l h

/-- C5 (witness): the adapter applied to a payload holding the two concrete
events keeps only the in-box one, whose normalized record indeed has
severity `medium` and location `India Region`. -/
theorem eonet_filter_witness :
    (⟨"e-80", "Event 80", "Severe Storms event detected", none, "India Region",
      "Severe Storms", "medium", "NASA EONET", "#", "India"⟩ :
        DisasterEvent).severity = "medium" ∧
    (⟨"e-80", "Event 80", "Severe Storms event detected", none, "India Region",
      "Severe Storms", "medium", "NASA EONET", "#", "India"⟩ :
        DisasterEvent).location = "India Region" :=
  eonet_filter_and_fixed_fields.2.2 ePayload80 parseNone _ rfl _
    (List.mem_singleton.mpr rfl)

/-! ## C1: fallback order -/

/-- C1 (counterexample): a successful-but-empty primary response makes the
pipeline return `[]` directly; the alternates are not consulted even though
GDACS holds a normalizable event the claim says would be returned. -/
theorem primary_empty_skips_alternates :
    fetchFromReliefWeb ⟨.ok ⟨some []⟩, .ok gPayloadEQ, .error ()⟩ parseNone 0 = [] ∧
    fetchFromGDACS (.ok gPayloadEQ) parseNone =
      .ok [gdacsEvent parseNone gFeatureEQ] ∧
    [gdacsEvent parseNone gFeatureEQ] ≠ ([] : List DisasterEvent) :=
  ⟨rfl, rfl, by simp⟩

/-- C1 (amended): the primary source is attempted first and its response —
even an empty one — is returned as-is; only a primary *error* starts the
alternate chain, which tries GDACS then EONET in that order and returns the
first non-empty normalized list; once a source has produced a non-empty
list, the outcomes of the later sources are irrelevant (they are not
invoked). -/
theorem fallback_order :
    (∀ (o : SourceOutcomes) (parse : String → Option Int) (now : Int)
      (p : RWPayload), o.relief = .ok p →
      fetchFromReliefWeb o parse now = parseRWPayload parse p) ∧
    (∀ (o : SourceOutcomes) (parse : String → Option Int) (now : Int),
      o.relief = .error () →
      fetchFromReliefWeb o parse now = fetchFromAlternativeSources o parse now) ∧
    (∀ (o : SourceOutcomes) (parse : String → Option Int) (now : Int)
      (l : List DisasterEvent),
      fetchFromGDACS o.gdacs parse = .ok l → l ≠ [] →
      fetchFromAlternativeSources o parse now = l) ∧
    (∀ (o : SourceOutcomes) (parse : String → Option Int) (now : Int)
      (l : List DisasterEvent),
      (fetchFromGDACS o.gdacs parse = .error () ∨
        fetchFromGDACS o.gdacs parse = .ok []) →
      fetchFromEONET o.eonet parse = .ok l → l ≠ [] →
      fetchFromAlternativeSources o parse now = l) ∧
    (∀ (r : Except Unit RWPayload) (g g' : Except Unit GPayload)
      (e e' : Except Unit EPayload) (parse : String → Option Int) (now : Int)
      (p : RWPayload), r = .ok p →
      fetchFromReliefWeb ⟨r, g, e⟩ parse now =
        fetchFromReliefWeb ⟨r, g', e'⟩ parse now) ∧
    (∀ (r : Except Unit RWPayload) (g : Except Unit GPayload)
      (e e' : Except Unit EPayload) (parse : String → Option Int) (now : Int)
      (l : List DisasterEvent),
      fetchFromGDACS g parse = .ok l → l ≠ [] →
      fetchFromAlternativeSources ⟨r, g, e⟩ parse now =
        fetchFromAlternativeSources ⟨r, g, e'⟩ parse now) := by
  refine ⟨?_, ?_, ?_, ?_, ?_, ?_⟩
  · intro o parse now p h
    simp only [fetchFromReliefWeb, h]
  · intro o parse now h
    simp only [fetchFromReliefWeb, h]
  · intro o parse now l hg hne
    simp only [fetchFromAlternativeSources, hg]
    rw [if_pos (List.length_pos.mpr hne)]
  · intro o parse now l hg he hne
    have hets : eonetThenSample o parse now = l := by
      simp only [eonetThenSample, he]
      rw [if_pos (List.length_pos.mpr hne)]
    rcases hg with hg | hg <;> simp only [fetchFromAlternativeSources, hg] <;>
      simpa using hets
  · intro r g g' e e' parse now p h
    subst h
    rfl
  · intro r g e e' parse now l hg hne
    simp only [fetchFromAlternativeSources, hg]
    rw [if_pos (List.length_pos.mpr hne), if_pos (List.length_pos.mpr hne)]

/-- C1 (witness): with the primary erroring and GDACS producing one event,
the alternate chain returns exactly the GDACS list. -/
theorem fallback_order_witness :
    fetchFromAlternativeSources ⟨.error (), .ok gPayloadEQ, .error ()⟩
      parseNone 0 = [gdacsEvent parseNone gFeatureEQ] :=
  fallback_order.2.2.1 ⟨.error (), .ok gPayloadEQ, .error ()⟩ parseNone 0 _
    rfl (by simp)

/-! ## C2: sample-data fallback -/

/-- C2 (counterexample): when every adapter succeeds with an empty list the
pipeline returns `[]`, not the 4-item sample dataset: a successful empty
primary response never reaches the sample fallback. -/
theorem all_empty_adapters_do_not_yield_sample :
    fetchFromReliefWeb allEmptyOutcomes parseNone 0 = [] ∧
    getSampleData 0 ≠ [] :=
  ⟨rfl, by simp [getSampleData]⟩

/-- C2 (amended): if the primary *errors* and each alternate errors or
returns empty, the pipeline returns exactly the fixed sample dataset: four
events (flood, earthquake, extreme temperature, cyclone) whose dates are
computed relative to the current time. -/
theorem sample_fallback :
    (∀ (o : SourceOutcomes) (parse : String → Option Int) (now : Int),
      o.relief = .error () →
      (fetchFromGDACS o.gdacs parse = .error () ∨
        fetchFromGDACS o.gdacs parse = .ok []) →
      (fetchFromEONET o.eonet parse = .error () ∨
        fetchFromEONET o.eonet parse = .ok []) →
      fetchFromReliefWeb o parse now = getSampleData now) ∧
    (∀ now : Int, (getSampleData now).length = 4 ∧
      (getSampleData now).map (·.disasterType) =
        ["Flood", "Earthquake", "Extreme Temperature", "Cyclone"] ∧
      (getSampleData now).map (·.date) =
        [some (now - 2 * 24 * 60 * 60 * 1000), some (now - 5 * 24 * 60 * 60 * 1000),
         some (now - 1 * 24 * 60 * 60 * 1000), some (now - 3 * 24 * 60 * 60 * 1000)]) := by
  constructor
  · intro o parse now hr hg he
    have hets : eonetThenSample o parse now = getSampleData now := by
      rcases he with he | he <;> simp [eonetThenSample, he]
    simp only [fetchFromReliefWeb, hr]
    rcases hg with hg | hg <;> simp only [fetchFromAlternativeSources, hg] <;>
      simpa using hets
  · intro now
    exact ⟨rfl, rfl, rfl⟩

/-- C2 (witness): with all three endpoints failing, the pipeline returns
the sample dataset. -/
theorem sample_fallback_witness :
    fetchFromReliefWeb allErrorOutcomes parseNone 0 = getSampleData 0 :=
  sample_fallback.1 allErrorOutcomes parseNone 0 rfl (Or.inl rfl) (Or.inl rfl)

/-! ## C9: error containment -/

/-- C9 (counterexample): a primary error is *not* treated like an empty
primary result: two outcome combinations differing only in whether the
primary errored or succeeded empty produce different results (the sample
dataset versus `[]`). -/
theorem primary_error_not_like_empty :
    fetchFromReliefWeb ⟨.error (), .ok ⟨some []⟩, .ok ⟨some []⟩⟩ parseNone 0 =
      getSampleData 0 ∧
    fetchFromReliefWeb ⟨.ok ⟨some []⟩, .ok ⟨some []⟩, .ok ⟨some []⟩⟩ parseNone 0 =
      ([] : List DisasterEvent) ∧
    getSampleData 0 ≠ [] :=
  ⟨rfl, rfl, by simp [getSampleData]⟩

/-- C9 (amended): the aggregation entry point is total — for every
combination of adapter outcomes it returns a list (never an escaped error);
and at the *alternate* sources an error is treated exactly like an empty
result (the primary source, by contrast, routes errors to the fallback
chain but returns its empty successes directly). -/
theorem pipeline_never_throws :
    (∀ (o : SourceOutcomes) (parse : String → Option Int) (c : JSCache)
      (now : Int), ∃ (l : List DisasterEvent) (c' : JSCache),
      fetchDisasterData o parse c now = (l, c')) ∧
    (∀ (r : Except Unit RWPayload) (g : Except Unit GPayload)
      (e : Except Unit EPayload) (parse : String → Option Int) (now : Int),
      fetchFromGDACS g parse = .ok [] →
      fetchFromAlternativeSources ⟨r, .error (), e⟩ parse now =
        fetchFromAlternativeSources ⟨r, g, e⟩ parse now) ∧
    (∀ (r : Except Unit RWPayload) (g : Except Unit GPayload)
      (e : Except Unit EPayload) (parse : String → Option Int) (now : Int),
      fetchFromEONET e parse = .ok [] →
      fetchFromAlternativeSources ⟨r, g, .error ()⟩ parse now =
        fetchFromAlternativeSources ⟨r, g, e⟩ parse now) := by
  refine ⟨?_, ?_, ?_⟩
  · intro o parse c now
    exact ⟨_, _, rfl⟩
  · intro r g e parse now hg
    have h1 : fetchFromGDACS (Except.error () : Except Unit GPayload) parse =
        .error () := rfl
    simp [fetchFromAlternativeSources, h1, hg, eonetThenSample]
  · intro r g e parse now he
    have h1 : fetchFromEONET (Except.error () : Except Unit EPayload) parse =
        .error () := rfl
    have hets : eonetThenSample ⟨r, g, .error ()⟩ parse now =
        eonetThenSample ⟨r, g, e⟩ parse now := by
      simp [eonetThenSample, h1, he]
    rcases hgg : fetchFromGDACS g parse with u | gl <;>
      simp only [fetchFromAlternativeSources, hgg] <;> simp [hets]

/-- C9 (witness): the totality statement evaluated on a concrete run, and
the GDACS error/empty equivalence on concrete outcomes. -/
theorem pipeline_never_throws_witness :
    (∃ (l : List DisasterEvent) (c' : JSCache),
      fetchDisasterData allErrorOutcomes parseNone initCache 0 = (l, c')) ∧
    fetchFromAlternativeSources ⟨.error (), .error (), .error ()⟩ parseNone 0 =
      fetchFromAlternativeSources ⟨.error (), .ok ⟨some []⟩, .error ()⟩
        parseNone 0 :=
  ⟨pipeline_never_throws.1 allErrorOutcomes parseNone initCache 0,
   pipeline_never_throws.2.1 (.error ()) (.ok ⟨some []⟩) (.error ()) parseNone 0
     rfl⟩

/-! ## C10: failed refresh leaves the cache untouched -/

/-- C10: the error branch of `fetchDisasterData` leaves the cache exactly
as it was — the cache fields are written only after a successful fetch
completes (in which case the fetched list is stored and stamped). -/
theorem failed_fetch_preserves_cache :
    (∀ (c : JSCache) (now : Int),
      (fetchDisasterDataStep (.error ()) c now).2 = c) ∧
    (∀ (c : JSCache) (now : Int) (l : List DisasterEvent),
      isCacheValid c now = false →
      fetchDisasterDataStep (.ok l) c now = (l, cachePut c l now)) := by
  constructor
  · intro c now
    simp only [fetchDisasterDataStep]
    split <;> rfl
  · intro c now l h
    simp [fetchDisasterDataStep, h]

/-- C10 (witness): on a concrete populated cache the error branch returns
it unchanged; on a concrete cold cache a successful fetch stores and
stamps. -/
theorem failed_fetch_preserves_cache_witness :
    (fetchDisasterDataStep (.error ()) staleZeroCache 1).2 = staleZeroCache ∧
    fetchDisasterDataStep (.ok []) initCache 1 = ([], cachePut initCache [] 1) :=
  ⟨failed_fetch_preserves_cache.1 staleZeroCache 1,
   failed_fetch_preserves_cache.2 initCache 1 [] rfl⟩

/-! ## C4: pipeline invariants -/

theorem fetchFromEONET_ok_fields (eo : Except Unit EPayload)
    (parse : String → Option Int) (l : List DisasterEvent)
    (h : fetchFromEONET eo parse = .ok l) :
    ∀ e ∈ l, e.severity = "medium" ∧ e.location = "India Region" := by
  cases eo with
  | error u => cases h
  | ok p =>
    simp only [fetchFromEONET] at h
    cases hp : p.events with
    | none =>
      rw [hp] at h
      cases h
      simp
    | some evs =>
      rw [hp] at h
      cases evs with
      | nil =>
        cases h
        simp
      | cons v vs => exact eonetMapAll_fixed_fields parse _ l h

theorem parseReliefWebData_severity (parse : String → Option Int)
    (items : List RWItem) :
    ∀ e ∈ parseReliefWebData parse items,
      e.severity = "high" ∨ e.severity = "medium" ∨ e.severity = "low" := by
  intro e he
  simp only [parseReliefWebData, List.mem_map] at he
  obtain ⟨item, _, rfl⟩ := he
  exact calculateSeverity_mem item.fields

theorem parseRWPayload_severity (parse : String → Option Int) (p : RWPayload) :
    ∀ e ∈ parseRWPayload parse p,
      e.severity = "high" ∨ e.severity = "medium" ∨ e.severity = "low" := by
  intro e he
  simp only [parseRWPayload] at he
  cases hp : p.data with
  | none =>
    rw [hp] at he
    simp at he
  | some items =>
    simp only [hp] at he
    by_cases hl : items.length > 0
    · rw [if_pos hl] at he
      exact parseReliefWebData_severity parse items e he
    · rw [if_neg hl] at he
      simp at he

theorem fetchFromGDACS_severity (g : Except Unit GPayload)
    (parse : String → Option Int) (l : List DisasterEvent)
    (h : fetchFromGDACS g parse = .ok l) :
    ∀ e ∈ l, e.severity = "high" ∨ e.severity = "medium" ∨ e.severity = "low" := by
  cases g with
  | error u => cases h
  | ok d =>
    simp only [fetchFromGDACS] at h
    cases hf : d.features with
    | none =>
      rw [hf] at h
      cases h
      intro e he
      simp at he
    | some fs =>
      rw [hf] at h
      cases fs with
      | nil =>
        cases h
        intro e he
        simp at he
      | cons f fs =>
        cases h
        intro e he
        simp only [List.mem_map] at he
        obtain ⟨feat, _, rfl⟩ := he
        exact mapGDACSAlertLevel_mem feat.properties.alertlevel

theorem getSampleData_severity (now : Int) :
    ∀ e ∈ getSampleData now,
      e.severity = "high" ∨ e.severity = "medium" ∨ e.severity = "low" := by
  intro e he
  simp only [getSampleData, List.mem_cons, List.not_mem_nil, or_false] at he
  rcases he with rfl | rfl | rfl | rfl <;> simp

theorem eonetThenSample_severity (o : SourceOutcomes)
    (parse : String → Option Int) (now : Int) :
    ∀ e ∈ eonetThenSample o parse now,
      e.severity = "high" ∨ e.severity = "medium" ∨ e.severity = "low" := by
  intro e he
  simp only [eonetThenSample] at he
  cases hee : fetchFromEONET o.eonet parse with
  | error u =>
    rw [hee] at he
    exact getSampleData_severity now e he
  | ok el =>
    simp only [hee] at he
    by_cases hl : el.length > 0
    · rw [if_pos hl] at he
      have hm := (fetchFromEONET_ok_fields o.eonet parse el hee e he).1
      exact Or.inr (Or.inl hm)
    · rw [if_neg hl] at he
      exact getSampleData_severity now e he

theorem fetchFromAlternativeSources_severity (o : SourceOutcomes)
    (parse : String → Option Int) (now : Int) :
    ∀ e ∈ fetchFromAlternativeSources o parse now,
      e.severity = "high" ∨ e.severity = "medium" ∨ e.severity = "low" := by
  intro e he
  simp only [fetchFromAlternativeSources] at he
  cases hgg : fetchFromGDACS o.gdacs parse with
  | error u =>
    rw [hgg] at he
    exact eonetThenSample_severity o parse now e he
  | ok gl =>
    simp only [hgg] at he
    by_cases hl : gl.length > 0
    · rw [if_pos hl] at he
      exact fetchFromGDACS_severity o.gdacs parse gl hgg e he
    · rw [if_neg hl] at he
      exact eonetThenSample_severity o parse now e he

/-- C4 (counterexample): a ReliefWeb report with no date fields produces an
event whose `date` is an Invalid Date (`new Date(undefined)`), even with a
date parser that accepts every string — the "date is always a valid
timestamp" half of the claim fails. -/
theorem reliefweb_invalid_date :
    (fetchFromReliefWeb ⟨.ok ⟨some [noDateItem]⟩, .error (), .error ()⟩
      parseAll 0).map (fun e => e.date.isSome) = [false] := rfl

/-- C4 (amended): every event the pipeline produces has severity in
{high, medium, low}; the valid-date guarantee, however, only holds where
the source supplies a parsable date — it does hold unconditionally for the
sample dataset. -/
theorem pipeline_severity_invariant :
    (∀ (o : SourceOutcomes) (parse : String → Option Int) (now : Int),
      ∀ e ∈ fetchFromReliefWeb o parse now,
        e.severity = "high" ∨ e.severity = "medium" ∨ e.severity = "low") ∧
    (∀ now : Int, ∀ e ∈ getSampleData now, e.date.isSome = true) := by
  constructor
  · intro o parse now e he
    simp only [fetchFromReliefWeb] at he
    cases hr : o.relief with
    | ok json =>
      rw [hr] at he
      exact parseRWPayload_severity parse json e he
    | error u =>
      rw [hr] at he
      exact fetchFromAlternativeSources_severity o parse now e he
  · intro now e he
    simp only [getSampleData, List.mem_cons, List.not_mem_nil, or_false] at he
    rcases he with rfl | rfl | rfl | rfl <;> rfl

/-- C4 (witness): the invariant evaluated on a concrete run (a GDACS
Red-alert event) and a concrete sample-data member. -/
theorem pipeline_severity_invariant_witness :
    ((gdacsEvent parseNone gFeatureEQ).severity = "high" ∨
     (gdacsEvent parseNone gFeatureEQ).severity = "medium" ∨
     (gdacsEvent parseNone gFeatureEQ).severity = "low") ∧
    ({ id := "sample-1"
       title := "Flood Alert in Kerala - Monsoon Impact"
       description := "Heavy rainfall has caused flooding in several districts of Kerala. Emergency services are responding to rescue operations. Volunteers needed for relief distribution."
       date := some (5 - 2 * 24 * 60 * 60 * 1000)
       location := "Kerala, India"
       disasterType := "Flood"
       severity := "high"
       source := "Sample Data"
       url := "#"
       country := "India" } : DisasterEvent).date.isSome = true :=
  ⟨pipeline_severity_invariant.1 ⟨.error (), .ok gPayloadEQ, .error ()⟩
     parseNone 0 (gdacsEvent parseNone gFeatureEQ) (List.Mem.head _),
   pipeline_severity_invariant.2 5 _ (List.Mem.head _)⟩

/-! ## C7: display ranking -/

theorem leKey_iff (a b : DisasterEvent) :
    leKey a b = true ↔
      (rankD a.severity < rankD b.severity ∨
        (rankD a.severity = rankD b.severity ∧ dateD b.date ≤ dateD a.date)) := by
  by_cases h : rankD a.severity = rankD b.severity <;> simp [leKey, h]

theorem leKey_total (a b : DisasterEvent) : leKey a b || leKey b a := by
  rw [Bool.or_eq_true, leKey_iff, leKey_iff]
  omega

theorem leKey_trans (a b c : DisasterEvent) :
    leKey a b → leKey b c → leKey a c := by
  intro hab hbc
  rw [leKey_iff] at hab hbc ⊢
  omega

theorem renderCompare_agree (a b : DisasterEvent) (ha : goodEvent a)
    (hb : goodEvent b) : decide (renderCompare a b ≤ 0) = leKey a b := by
  obtain ⟨hsa, hda⟩ := ha
  obtain ⟨hsb, hdb⟩ := hb
  obtain ⟨da, hda⟩ := Option.isSome_iff_exists.mp hda
  obtain ⟨db, hdb⟩ := Option.isSome_iff_exists.mp hdb
  rcases hsa with hsa | hsa | hsa <;> rcases hsb with hsb | hsb | hsb <;>
    simp [renderCompare, leKey, severityOrderJS, rankD, jsDateSub, dateD,
      hsa, hsb, hda, hdb, sub_nonpos]

theorem renderSort_eq_keySort (l : List DisasterEvent)
    (h : ∀ e ∈ l, goodEvent e) : renderSort l = l.mergeSort leKey := by
  have hagree : ∀ a ∈ l, ∀ b ∈ l,
      (decide (renderCompare a b ≤ 0)) = leKey (id a) (id b) :=
    fun a ha b hb => renderCompare_agree a b (h a ha) (h b hb)
  have hmap := List.map_mergeSort hagree
  simp only [List.map_id] at hmap
  exact hmap

/-- C7: on any list of pipeline events (severity in the three-valued enum,
valid dates), the display sort is a permutation of its input, ordered by
severity rank ascending (high, then medium, then low) with date descending
as the tie-break, and stable: a pair with equal severity and equal date
keeps its input order.  On the spec's concrete example with T1 < T3 the
result is [high/T3, high/T1, low/T2]. -/
theorem render_ordering :
    (∀ l : List DisasterEvent, (∀ e ∈ l, goodEvent e) →
      (renderSort l).Perm l ∧
      (renderSort l).Pairwise (fun a b =>
        rankD a.severity < rankD b.severity ∨
          (rankD a.severity = rankD b.severity ∧ dateD b.date ≤ dateD a.date)) ∧
      (∀ a b : DisasterEvent, a.severity = b.severity → a.date = b.date →
        List.Sublist [a, b] l → List.Sublist [a, b] (renderSort l))) ∧
    renderSort
      [⟨"", "", "", some 2, "", "", "low", "", "", ""⟩,
       ⟨"", "", "", some 1, "", "", "high", "", "", ""⟩,
       ⟨"", "", "", some 3, "", "", "high", "", "", ""⟩] =
      [⟨"", "", "", some 3, "", "", "high", "", "", ""⟩,
       ⟨"", "", "", some 1, "", "", "high", "", "", ""⟩,
       ⟨"", "", "", some 2, "", "", "low", "", "", ""⟩] := by
  constructor
  · intro l h
    refine ⟨List.mergeSort_perm l _, ?_, ?_⟩
    · rw [renderSort_eq_keySort l h]
      exact (List.sorted_mergeSort leKey_trans leKey_total l).imp
        (fun hab => (leKey_iff _ _).mp hab)
    · intro a b hsev hdate hsub
      rw [renderSort_eq_keySort l h]
      refine List.pair_sublist_mergeSort leKey_trans leKey_total ?_ hsub
      simp [leKey, hsev, hdate]
  · simp [renderSort, List.mergeSort, List.splitInTwo, List.merge,
      renderCompare, severityOrderJS, jsDateSub]

/-- C7 (witness): the general ordering statement instantiated on the
spec's concrete three-event list. -/
theorem render_ordering_witness :
    (renderSort
      [⟨"", "", "", some 2, "", "", "low", "", "", ""⟩,
       ⟨"", "", "", some 1, "", "", "high", "", "", ""⟩,
       ⟨"", "", "", some 3, "", "", "high", "", "", ""⟩]).Perm
      [⟨"", "", "", some 2, "", "", "low", "", "", ""⟩,
       ⟨"", "", "", some 1, "", "", "high", "", "", ""⟩,
       ⟨"", "", "", some 3, "", "", "high", "", "", ""⟩] :=
  (render_ordering.1
    [⟨"", "", "", some 2, "", "", "low", "", "", ""⟩,
     ⟨"", "", "", some 1, "", "", "high", "", "", ""⟩,
     ⟨"", "", "", some 3, "", "", "high", "", "", ""⟩] (by decide)).1
